import Mathlib

/-!
Shallow embedding of the watch/monitoring subsystem of the NEVERSAYNEVER
repository: the WatchManager tick loop (src/services/watch.py), the
trailing-stop calculator (src/services/trailing.py) and the paper trade
ledger (src/services/ledger.py).

Prices and USD amounts are modelled as rationals.  Python `a or b` on
numbers treats `0.0` as falsy; `dict.get` returning a possibly missing
value is modelled with `Option`.  Network calls (market-data fetch, route
probe, quote) are modelled by passing their results as parameters, and the
external effects of a tick (ledger close, notification) are returned as
data so that theorems can speak about which effects occur.
-/

namespace NSN

/-- Python `a or b` on floats: `a` unless `a == 0.0`. -/
def pyOr (a b : ℚ) : ℚ := if a = 0 then b else a

/-- Python `d.get(k) or b`: the stored value unless missing or falsy. -/
def pyOrOpt (a : Option ℚ) (b : ℚ) : ℚ :=
  match a with
  | none => b
  | some v => pyOr v b

/-- Python `a or b` on strings: `a` unless `a == ""`. -/
def pyOrStr (a b : String) : String := if a = "" then b else a

/-- Python `d.get(k) or b` on strings. -/
def pyOrStrOpt (a : Option String) (b : String) : String :=
  match a with
  | none => b
  | some v => pyOrStr v b

/-- The configuration fields of `src/config.py` used by the watch
subsystem; field names follow the source. -/
structure Cfg where
  ATR_WINDOW : ℕ
  TRAIL_K : ℚ
  HARD_STOP_PCT : ℚ
  GAP_PCT : ℚ
  RUG_ENABLED : Bool
  RUG_DROP_PCT : ℚ
  WATCHLIST_MAX : ℕ
  WATCH_QUOTE_INTERVAL_S : ℚ
  WATCH_ROUTE_FAILS_EXIT : ℕ
  WATCH_ENTRY_ACCEL_PCT : ℚ
  FEE_CAP_PCT : ℚ
  MAX_SLIPPAGE_PCT : ℚ
  PER_TRADE_USD_TARGET : ℚ
  PER_TRADE_USD_MIN : ℚ
  MAX_OPEN_POSITIONS : ℕ
  TOTAL_EXPOSURE_CAP_PCT : ℚ
  PAPER_START_BAL_USD : ℚ
  DRY_RUN : Bool
  PAPER_AUTOTRADE : Bool
deriving DecidableEq

/-- One entry of `WatchManager.watch` (mint -> state dict).  `prev_price`
is `Option` because `add_candidate` does not set it (first read uses
`st.get("prev_price")`), while the `run` loop's `setdefault` does. -/
structure WatchState where
  name : String
  symbol : String
  mint : String
  added_ts : ℚ
  base_price : ℚ
  last_price : ℚ
  prev_price : Option ℚ
  vol_ema : ℚ
  peak : ℚ
  trail : ℚ
  last_quote_ts : ℚ
  route_fail_streak : ℕ
deriving DecidableEq

/-- A position dict as stored by `TradeLedger.open_paper`. -/
structure Position where
  token : String
  symbol : String
  mint : String
  entry_ts : ℚ
  entry_usd : ℚ
  entry_price : ℚ
  fee_pct : ℚ
  slip_pct : ℚ
  router : String
  mc : ℚ
  lp : ℚ
  lp_mc : ℚ
  reason : String
deriving DecidableEq

/-- Exit reason codes passed to `TradeLedger.close_paper` in
`WatchManager._tick_position`. -/
inductive ExitReason where
  | gap
  | rug
  | trail
  | route_fail
deriving DecidableEq

/-- The reason-code string the source passes to `close_paper`. -/
def ExitReason.code : ExitReason → String
  | .gap => "gap"
  | .rug => "rug"
  | .trail => "trail"
  | .route_fail => "route_fail"

/-- The observable outcome of a non-`None` exit decision on a tick: the
reason code, the price quoted in the notification message, and the
`exit_usd` notional passed to `TradeLedger.close_paper`. -/
structure ExitAction where
  reason : ExitReason
  exit_price : ℚ
  exit_usd : ℚ
deriving DecidableEq

/-- The price used by `_tick_position`:
`price = meta.get("price") or st.get("last_price") or pos["entry_price"]`.
`fetched` is the market-data fetch result (`None` on fetch failure). -/
def tickPrice (fetched : Option ℚ) (pos : Position) (st : WatchState) : ℚ :=
  pyOrOpt fetched (pyOr st.last_price pos.entry_price)

/-- The updated volatility EMA of a tick:
`st["vol_ema"]*(1-alpha) + abs(price-prev)*alpha` with
`alpha = 2.0/(ATR_WINDOW+1.0)` and `prev = st.get("prev_price") or price`. -/
def tickVol (cfg : Cfg) (st : WatchState) (price : ℚ) : ℚ :=
  let prev := pyOrOpt st.prev_price price
  let alpha : ℚ := 2 / ((cfg.ATR_WINDOW : ℚ) + 1)
  st.vol_ema * (1 - alpha) + |price - prev| * alpha

/-- The updated peak of a tick: `max(st["peak"], price)` (the `st.get`
default `pos["entry_price"]` is never used: every state construction sets
`peak`). -/
def tickPeak (st : WatchState) (price : ℚ) : ℚ := max st.peak price

/-- The updated trail of a tick:
`candidate = peak - TRAIL_K*vol_ema; if candidate > trail: trail = candidate`
(the `st.get("trail", ...)` default is never used: every state
construction sets `trail`). -/
def tickTrail (cfg : Cfg) (st : WatchState) (price : ℚ) : ℚ :=
  let candidate := tickPeak st price - cfg.TRAIL_K * tickVol cfg st price
  if candidate > st.trail then candidate else st.trail

/-- The Python exception `_tick_position` hits unconditionally at
watch.py line 87: it calls `self.ledger.mark(mint, price)`, and
`TradeLedger` (ledger.py, the only ledger `app.py` ever hands to
`WatchManager`) defines no `mark` method, so the attribute access raises
`AttributeError` on every position tick. -/
inductive AttributeErr where
  | markMissing
deriving DecidableEq

/-- The state mutations of the block at watch.py lines 85-101 given the
tick price: the `last_price` store, the volatility EMA, the peak and the
trail ratchet.  In the program as shipped only the `last_price` store
(line 85) is ever reached: line 87 `self.ledger.mark(mint, price)`
raises `AttributeError` first (see `tickPositionE`), so the
volatility/peak/trail updates of lines 89-101 are dead code; this
definition records what they would compute. -/
def tickUpdateAt (cfg : Cfg) (st : WatchState) (price : ℚ) : WatchState :=
  { st with
    last_price := price
    prev_price := some price
    vol_ema := tickVol cfg st price
    peak := tickPeak st price
    trail := tickTrail cfg st price }

/-- `WatchManager._route_health` (watch.py lines 69-80): throttled route
probe.  `probe_ok` is the `q.get("ok")` result of the quote the source
would request; the returned Bool is
`st["route_fail_streak"] < Cfg.WATCH_ROUTE_FAILS_EXIT` (True without
probing when inside the throttle window).  Its only call site, watch.py
line 128, sits in the unreachable tail of `_tick_position` (see
`tickPositionE`), so in the program as shipped this function is never
invoked. -/
def routeHealth (cfg : Cfg) (now : ℚ) (probe_ok : Bool) (st : WatchState) :
    WatchState × Bool :=
  if now - st.last_quote_ts < cfg.WATCH_QUOTE_INTERVAL_S then (st, true)
  else
    let st1 := { st with last_quote_ts := now }
    let st2 :=
      if probe_ok then { st1 with route_fail_streak := 0 }
      else { st1 with route_fail_streak := st1.route_fail_streak + 1 }
    (st2, decide (st2.route_fail_streak < cfg.WATCH_ROUTE_FAILS_EXIT))

/-- The gap condition of `_tick_position` (checked only under
`Cfg.RUG_ENABLED`): `price <= trail*(1.0-GAP_PCT)` against the freshly
updated trail. -/
def gapFiresAt (cfg : Cfg) (st : WatchState) (price : ℚ) : Prop :=
  cfg.RUG_ENABLED = true ∧ price ≤ tickTrail cfg st price * (1 - cfg.GAP_PCT)

/-- The single-tick cliff condition of `_tick_position` (checked only
under `Cfg.RUG_ENABLED`): with `prev = st.get("prev_price") or price` and
`prevp = prev if prev > 0 else price`, fires when
`prevp > 0 and (prevp-price)/prevp >= RUG_DROP_PCT`. -/
def rugFiresAt (cfg : Cfg) (st : WatchState) (price : ℚ) : Prop :=
  cfg.RUG_ENABLED = true ∧
    (let prev := pyOrOpt st.prev_price price
     let prevp := if prev > 0 then prev else price
     prevp > 0 ∧ (prevp - price) / prevp ≥ cfg.RUG_DROP_PCT)

instance (cfg : Cfg) (st : WatchState) (price : ℚ) :
    Decidable (gapFiresAt cfg st price) := by
  unfold gapFiresAt; infer_instance

instance (cfg : Cfg) (st : WatchState) (price : ℚ) :
    Decidable (rugFiresAt cfg st price) := by
  unfold rugFiresAt; infer_instance

/-- The remainder of `_tick_position` past line 87 (watch.py lines
89-132), given the tick price: the state updates and the exit checks.  A
`some` decision corresponds in the source to a `close_paper` call with
`exit_usd` and the reason code, followed by a notification quoting
`exit_price`.  This block is unreachable in the program as shipped —
every `_tick_position` raises at line 87 before it (see
`tickPositionE`); it is kept to state what the dead code would decide. -/
def tickAt (cfg : Cfg) (now : ℚ) (probe_ok : Bool) (pos : Position) (st : WatchState)
    (price : ℚ) : WatchState × Option ExitAction :=
  let st1 := tickUpdateAt cfg st price
  if gapFiresAt cfg st price then
    (st1, some ⟨.gap, price, pos.entry_usd * (price / pos.entry_price)⟩)
  else if rugFiresAt cfg st price then
    (st1, some ⟨.rug, price, pos.entry_usd * (price / pos.entry_price)⟩)
  else if price ≤ st1.trail then
    (st1, some ⟨.trail, st1.trail, pos.entry_usd * (st1.trail / pos.entry_price)⟩)
  else
    let rh := routeHealth cfg now probe_ok st1
    if rh.2 then (rh.1, none)
    else (rh.1, some ⟨.route_fail, price, pos.entry_usd * (price / pos.entry_price)⟩)

/-- `WatchManager._tick_position` (watch.py lines 82-132) as the program
actually executes it.  Line 84 computes the fallback price from the
fetch result (`none` on a failed fetch), line 85 stores it in
`st["last_price"]` (an in-place dict mutation that survives the
exception), and line 87 `self.ledger.mark(mint, price)` raises
`AttributeError` — `TradeLedger` defines no `mark` — so the tick ends in
the exception (caught by `run`'s blanket `except`) before the
volatility/peak/trail updates and every exit check of lines 89-132.  The
first component is the state the tick leaves behind; the second is the
tick's outcome, which is always the error — an exit decision could only
come from the unreachable remainder (`tickAt`). -/
def tickPositionE (cfg : Cfg) (now : ℚ) (fetched : Option ℚ) (probe_ok : Bool)
    (pos : Position) (st : WatchState) :
    WatchState × Except AttributeErr (Option ExitAction) :=
  let price := tickPrice fetched pos st
  ({ st with last_price := price }, Except.error AttributeErr.markMissing)

/-- One row of the paper-trades history CSV (the columns the claims
concern; `exit_usd`, `exit_reason` and `pnl_pct` are empty on BUY rows). -/
structure TradeRow where
  side : String
  token : String
  symbol : String
  mint : String
  entry_usd : ℚ
  entry_price : ℚ
  exit_usd : Option ℚ
  exit_reason : Option String
  pnl_pct : Option ℚ
deriving DecidableEq

/-- The mutable state of `TradeLedger` (ledger.py): the paper balance, the
positions dict (modelled as an association list keyed by mint, keys
unique) and the appended trade history. -/
structure TradeLedger where
  balance : ℚ
  positions : List (String × Position)
  history : List TradeRow
deriving DecidableEq

/-- `TradeLedger.free_capacity_ok` (ledger.py lines 22-31): open-slot
count, total-exposure fraction and minimum trade size, with the
`max(1e-9, balance if balance > 0 else PAPER_START_BAL_USD)` divisor
guard of the source. -/
def free_capacity_ok (cfg : Cfg) (l : TradeLedger) (next_entry_usd : ℚ) : Bool :=
  if l.positions.length ≥ cfg.MAX_OPEN_POSITIONS then false
  else
    let denom : ℚ :=
      max (1 / 1000000000) (if l.balance > 0 then l.balance else cfg.PAPER_START_BAL_USD)
    let exposure_now := (l.positions.map (fun p => p.2.entry_usd)).sum / denom
    if exposure_now + next_entry_usd / denom > cfg.TOTAL_EXPOSURE_CAP_PCT then false
    else if next_entry_usd < cfg.PER_TRADE_USD_MIN then false
    else true

/-- `TradeLedger.close_paper` (ledger.py lines 47-58):
`pos = positions.pop(mint, None); if not pos: return`, then the balance
update and the SELL history row.  Position dicts are never empty in the
source (`open_paper` always stores a populated dict), so the falsy-dict
case of `if not pos` coincides with the key being absent. -/
def close_paper (l : TradeLedger) (mint : String) (exit_usd : ℚ) (exit_reason : String) :
    TradeLedger :=
  match List.lookup mint l.positions with
  | none => l
  | some pos =>
    let pnl_pct := (exit_usd / pos.entry_usd - 1) * 100
    { balance := l.balance + (exit_usd - pos.entry_usd)
      positions := l.positions.eraseP (fun p => p.1 == mint)
      history := l.history ++
        [⟨"SELL", pos.token, pos.symbol, pos.mint, pos.entry_usd, pos.entry_price,
          some exit_usd, some exit_reason, some pnl_pct⟩] }

/-- A router quote result dict: `ok`, and the `price`/`fee_pct`/`slip_pct`
fields read with `q.get` (`price` read with default `nowp`, the two
percentage fields with default `0`). -/
structure QuoteResult where
  ok : Bool
  price : Option ℚ
  fee_pct : ℚ
  slip_pct : ℚ
deriving DecidableEq

/-- The arguments of the `ledger.open_paper` call a chase entry would
make (watch.py line 62). -/
structure OpenCall where
  token : String
  symbol : String
  mint : String
  entry_usd : ℚ
  price : ℚ
  fee_pct : ℚ
  slip_pct : ℚ
  router : String
  mc : ℚ
  lp : ℚ
  reason : String
deriving DecidableEq

/-- The externally observable effects of one `_maybe_chase_entry` call:
whether `ledger.free_capacity_ok` was consulted, whether a router quote
was requested, the `open_paper` call (if any), and whether a buy
notification was sent. -/
structure ChaseTrace where
  capacity_checked : Bool
  quoted : Bool
  opened : Option OpenCall
  notified : Bool
deriving DecidableEq

/-- `WatchManager._maybe_chase_entry` (watch.py lines 36-67) as a pure
function over its inputs: the quote the router would return and the
`mc`/`lp_usd` fields of the token-overview fetch (absent on a failed
fetch).  The return value is the trace of external effects; every early
`return` of the source yields a trace with `opened = none` and
`notified = false`. -/
def maybeChaseEntry (cfg : Cfg) (ledger : TradeLedger) (routerName : String)
    (mint : String) (st : WatchState) (q : QuoteResult) (mc lp : Option ℚ) : ChaseTrace :=
  if ¬ (cfg.DRY_RUN = true ∧ cfg.PAPER_AUTOTRADE = true) then ⟨false, false, none, false⟩
  else if ¬ free_capacity_ok cfg ledger cfg.PER_TRADE_USD_TARGET = true then
    ⟨true, false, none, false⟩
  else
    let base := pyOr st.base_price 0
    let nowp := pyOr st.last_price 0
    if base ≤ 0 ∨ nowp ≤ 0 then ⟨true, false, none, false⟩
    else
      let move := (nowp / base - 1) * 100
      if move < cfg.WATCH_ENTRY_ACCEL_PCT then ⟨true, false, none, false⟩
      else if ¬ q.ok = true then ⟨true, true, none, false⟩
      else if q.fee_pct > cfg.FEE_CAP_PCT ∨ q.slip_pct > cfg.MAX_SLIPPAGE_PCT then
        ⟨true, true, none, false⟩
      else
        let price := q.price.getD nowp
        ⟨true, true,
          some ⟨st.name, st.symbol, mint, cfg.PER_TRADE_USD_TARGET, price,
            q.fee_pct, q.slip_pct, routerName, pyOrOpt mc 0, pyOrOpt lp 0, "watch_chase"⟩,
          true⟩

/-- The `baseToken` sub-dict of a discovery candidate. -/
structure BaseToken where
  address : Option String
  id : Option String
  name : Option String
  symbol : Option String
deriving DecidableEq

/-- A discovery candidate `meta` dict as consumed by `add_candidate`
(`baseToken` is `none` when missing or not a dict). -/
structure CandidateMeta where
  baseToken : Option BaseToken
  price : Option ℚ
deriving DecidableEq

/-- The fresh watch-state dict built by `WatchManager.add_candidate`. -/
def initWatchState (cfg : Cfg) (now : ℚ) (base : BaseToken) (mint : String)
    (price : ℚ) : WatchState :=
  { name := pyOrStrOpt base.name (pyOrStrOpt base.symbol "token")
    symbol := base.symbol.getD ""
    mint := mint
    added_ts := now
    base_price := pyOr price 0
    last_price := pyOr price 0
    prev_price := none
    vol_ema := 0
    peak := pyOr price 0
    trail := pyOr price 0 * (1 - cfg.HARD_STOP_PCT)
    last_quote_ts := 0
    route_fail_streak := 0 }

/-- `WatchManager.add_candidate` (watch.py lines 16-33): extract the mint
from `baseToken` (`address or id or ""`, stripped), drop the candidate on
an empty mint, an already-watched mint, or a full watch set; otherwise
insert the fresh state. -/
def add_candidate (cfg : Cfg) (now : ℚ) (watch : List (String × WatchState))
    (meta : CandidateMeta) : List (String × WatchState) :=
  let base := meta.baseToken.getD ⟨none, none, none, none⟩
  let mint := (pyOrStrOpt base.address (pyOrStrOpt base.id "")).trim
  if mint = "" then watch
  else if (List.lookup mint watch).isSome then watch
  else if watch.length ≥ cfg.WATCHLIST_MAX then watch
  else watch ++ [(mint, initWatchState cfg now base mint (pyOrOpt meta.price 0))]

/-- The `self.watch.setdefault(mint, {...})` step of `WatchManager.run`
(watch.py lines 140-147): a ledger-reported open position not yet watched
is inserted unconditionally, with no capacity check. -/
def adoptPosition (cfg : Cfg) (now : ℚ) (watch : List (String × WatchState))
    (mint : String) (pos : Position) : List (String × WatchState) :=
  if (List.lookup mint watch).isSome then watch
  else
    watch ++
      [(mint,
        { name := pos.token
          symbol := pos.symbol
          mint := mint
          added_ts := now
          base_price := pos.entry_price
          last_price := pos.entry_price
          prev_price := some pos.entry_price
          vol_ema := 0
          peak := pos.entry_price
          trail := pos.entry_price * (1 - cfg.HARD_STOP_PCT)
          last_quote_ts := 0
          route_fail_streak := 0 })]

/-- `ema(values, span)` from trailing.py: `out = [values[0]]` then
`out.append(out[-1] + k*(v - out[-1]))` for the remaining values.  The
accumulator-threading tail. -/
def emaAux (k : ℚ) (acc : ℚ) : List ℚ → List ℚ
  | [] => []
  | v :: vs =>
    let nxt := acc + k * (v - acc)
    nxt :: emaAux k nxt vs

/-- `ema(values, span)`: empty in, empty out; otherwise the recurrence
with smoothing constant `k = 2.0/(span+1.0)`. -/
def ema (values : List ℚ) (span : ℕ) : List ℚ :=
  match values with
  | [] => []
  | v :: vs => v :: emaAux (2 / ((span : ℚ) + 1)) v vs

/-- Python `zip(a, b, c)`: truncates to the shortest list. -/
def zip3 : List ℚ → List ℚ → List ℚ → List (ℚ × ℚ × ℚ)
  | a :: as_, b :: bs, c :: cs => (a, b, c) :: zip3 as_ bs cs
  | _, _, _ => []

/-- The true-range loop of `atr`: each step is
`max(h - l, abs(h - prev_close), abs(l - prev_close))` and then
`prev_close = c`. -/
def trList (prev_close : ℚ) : List (ℚ × ℚ × ℚ) → List ℚ
  | [] => []
  | (h, l, c) :: rest =>
    max (h - l) (max |h - prev_close| |l - prev_close|) :: trList c rest

/-- `atr(high, low, close, window)` from trailing.py:
`prev_close = close[0] if close else 0.0`, true ranges over
`zip(high, low, close)`, then `ema(trs, window)`. -/
def atr (high low close : List ℚ) (window : ℕ) : List ℚ :=
  let prev0 : ℚ := match close with | [] => 0 | c :: _ => c
  ema (trList prev0 (zip3 high low close)) window

/-! Concrete instances used to evaluate the definitions on closed inputs.
`cfg0` carries the default values of `src/config.py` (TRAIL_K=2.8,
HARD_STOP_PCT=0.20, GAP_PCT=0.08, RUG_DROP_PCT=0.35, ATR_WINDOW=12,
WATCH_ROUTE_FAILS_EXIT=2, WATCH_QUOTE_INTERVAL_S=10, etc.). -/

def cfg0 : Cfg :=
  { ATR_WINDOW := 12
    TRAIL_K := 14 / 5
    HARD_STOP_PCT := 1 / 5
    GAP_PCT := 2 / 25
    RUG_ENABLED := true
    RUG_DROP_PCT := 7 / 20
    WATCHLIST_MAX := 10
    WATCH_QUOTE_INTERVAL_S := 10
    WATCH_ROUTE_FAILS_EXIT := 2
    WATCH_ENTRY_ACCEL_PCT := 5 / 2
    FEE_CAP_PCT := 3
    MAX_SLIPPAGE_PCT := 3
    PER_TRADE_USD_TARGET := 10
    PER_TRADE_USD_MIN := 8
    MAX_OPEN_POSITIONS := 3
    TOTAL_EXPOSURE_CAP_PCT := 3 / 4
    PAPER_START_BAL_USD := 40
    DRY_RUN := true
    PAPER_AUTOTRADE := true }

/-- A sample open position: 10 USD at entry price 1. -/
def pos0 : Position :=
  ⟨"tok", "TOK", "m1", 0, 10, 1, 0, 0, "PHOTON", 0, 0, 0, "watch_chase"⟩

/-- A sample watch state with trail 0.8 (the initial hard-stop level for
entry price 1 under `cfg0`). -/
def stA : WatchState :=
  { name := "tok"
    symbol := "TOK"
    mint := "m1"
    added_ts := 0
    base_price := 1
    last_price := 1
    prev_price := some 1
    vol_ema := 0
    peak := 2
    trail := 4 / 5
    last_quote_ts := 0
    route_fail_streak := 0 }

/-- A watch state whose route-fail streak already sits at the exit
threshold while the last probe is 1 second old (inside the 10-second
throttle window); price 2 sits above the trail so no price exit fires. -/
def stC4 : WatchState :=
  { name := "tok"
    symbol := "TOK"
    mint := "m1"
    added_ts := 0
    base_price := 2
    last_price := 2
    prev_price := some 2
    vol_ema := 13 / 11
    peak := 2
    trail := 1
    last_quote_ts := 5
    route_fail_streak := 2 }

/-- A watch state with no probe yet (`last_quote_ts = 0`) and a clean
streak. -/
def stD0 : WatchState :=
  { name := "tok"
    symbol := "TOK"
    mint := "m1"
    added_ts := 0
    base_price := 1
    last_price := 2
    prev_price := some 2
    vol_ema := 13 / 11
    peak := 2
    trail := 1
    last_quote_ts := 0
    route_fail_streak := 0 }

/-- A state whose volatility would keep the trail pinned at 0.8 for a
0.79 tick: the trail condition holds but neither gap nor cliff does. -/
def stT : WatchState :=
  { stA with peak := 1, vol_ema := 13 / 11, prev_price := some (79 / 100) }

/-- A watch state whose stored last price is 0 (as `add_candidate`
creates when the candidate meta carries no price), so the tick's
fallback chain reaches the entry price. -/
def stB : WatchState := { stA with last_price := 0, prev_price := none }

/-- A configuration whose watch list holds at most one entry. -/
def cfgSmall : Cfg := { cfg0 with WATCHLIST_MAX := 1 }

/-- A configuration with live mode (`DRY_RUN = false`). -/
def cfgLive : Cfg := { cfg0 with DRY_RUN := false }

/-- A one-entry watch set, already at `cfgSmall`'s capacity. -/
def watch1 : List (String × WatchState) := [("m1", stA)]

/-- A discovery candidate with mint `"m2"`. -/
def metaM : CandidateMeta := ⟨some ⟨some "m2", none, some "tok2", some "T2"⟩, some 2⟩

/-- A ledger at the `MAX_OPEN_POSITIONS = 3` slot cap of `cfg0`. -/
def ledgerFull : TradeLedger := ⟨40, [("a", pos0), ("b", pos0), ("c", pos0)], []⟩

/-- A ledger with no open positions. -/
def ledger0 : TradeLedger := ⟨40, [], []⟩

/-- A successful quote with 1% fee and 1% slip, under the caps. -/
def qOk : QuoteResult := ⟨true, some (103 / 100), 1, 1⟩

/-- The per-index true range as the spec words it: for series of highs,
lows and closes, `max(high-low, abs(high-prevClose), abs(low-prevClose))`
where `prevClose` is the previous close, initialised to the first close
at index 0.  Stated (independently of the source's accumulator threading)
to compare the source's `atr` against. -/
def trueRangeSpec (hs ls cs : List ℚ) (i : ℕ) : ℚ :=
  max (hs.getD i 0 - ls.getD i 0)
    (max |hs.getD i 0 - (if i = 0 then cs.getD 0 0 else cs.getD (i - 1) 0)|
         |ls.getD i 0 - (if i = 0 then cs.getD 0 0 else cs.getD (i - 1) 0)|)

/-- Sample high series for evaluating `atr`. -/
def highs0 : List ℚ := [2, 3]

/-- Sample low series for evaluating `atr`. -/
def lows0 : List ℚ := [1, 2]

/-- Sample close series for evaluating `atr`. -/
def closes0 : List ℚ := [3 / 2, 5 / 2]

/-! Helper lemmas shared by the claim theorems. -/

/-- Unfold the absolute value into a sign test, so that `norm_num` can
evaluate closed rational instances of the definitions. -/
theorem abs_ite_q (a : ℚ) : |a| = if 0 ≤ a then a else -a := by
  split_ifs with h
  · exact abs_of_nonneg h
  · exact abs_of_neg (lt_of_not_le h)

/-- The ratchet update `if candidate > trail then candidate else trail`
is exactly a `max`. -/
theorem tickTrail_eq_max (cfg : Cfg) (st : WatchState) (price : ℚ) :
    tickTrail cfg st price =
      max st.trail (tickPeak st price - cfg.TRAIL_K * tickVol cfg st price) := by
  unfold tickTrail
  dsimp only
  split_ifs with h
  · exact (max_eq_right (le_of_lt h)).symm
  · exact (max_eq_left (not_lt.mp h)).symm

/-- C1 (code bug).  The update rule at watch.py lines 96-101 (and
trailing.py lines 35-42) is exactly the claimed ratchet
`new trail = max(previous trail, peak - TRAIL_K * volEMA)` — but it is
dead code: every position tick raises `AttributeError` at line 87
(`TradeLedger` has no `mark`), so the real tick leaves the stored trail
untouched.  At the concrete failing input the stored trail stays 0.8
while the claimed update would lift it to 116/65. -/
theorem trail_ratchet_bug (cfg : Cfg) (now : ℚ) (fetched : Option ℚ) (probe_ok : Bool)
    (pos : Position) (st : WatchState) :
    (tickPositionE cfg now fetched probe_ok pos st).2 =
      Except.error AttributeErr.markMissing
    ∧ (tickPositionE cfg now fetched probe_ok pos st).1.trail = st.trail
    ∧ tickTrail cfg st (tickPrice fetched pos st) =
        max st.trail
          (tickPeak st (tickPrice fetched pos st) -
            cfg.TRAIL_K * tickVol cfg st (tickPrice fetched pos st))
    ∧ (tickPositionE cfg0 0 (some (1 / 2)) true pos0 stA).1.trail = stA.trail
    ∧ tickTrail cfg0 stA (tickPrice (some (1 / 2)) pos0 stA) = 116 / 65 := by
  refine ⟨rfl, rfl, tickTrail_eq_max cfg st _, rfl, ?_⟩
  norm_num [tickTrail, tickPeak, tickVol, tickPrice, pyOr, pyOrOpt, abs_ite_q, cfg0,
    stA, pos0]

/-- C2 (code bug).  The chain at watch.py lines 103-132 implements
exactly the claimed priority Gap > Cliff/Rug > Trail > RouteFail, but no
decision is ever reported: every position tick raises `AttributeError`
at line 87 first.  At the failing input both the gap and the trail
conditions hold and the unreachable block would report the gap exit at
price 0.5 with notional 5 — the program instead raises and reports
nothing. -/
theorem exit_priority_bug :
    (tickPositionE cfg0 0 (some (1 / 2)) true pos0 stA).2 =
      Except.error AttributeErr.markMissing
    ∧ gapFiresAt cfg0 stA (tickPrice (some (1 / 2)) pos0 stA)
    ∧ tickPrice (some (1 / 2)) pos0 stA ≤
        tickTrail cfg0 stA (tickPrice (some (1 / 2)) pos0 stA)
    ∧ (tickAt cfg0 0 true pos0 stA (tickPrice (some (1 / 2)) pos0 stA)).2 =
        some ⟨.gap, 1 / 2, 5⟩ := by
  refine ⟨rfl, ?_, ?_, ?_⟩
  · norm_num [abs_ite_q, gapFiresAt, tickTrail, tickPeak, tickVol, tickPrice, pyOr,
      pyOrOpt, cfg0, stA, pos0]
  · norm_num [abs_ite_q, tickTrail, tickPeak, tickVol, tickPrice, pyOr, pyOrOpt, cfg0,
      stA, pos0]
  · norm_num [tickAt, tickUpdateAt, gapFiresAt, rugFiresAt, tickTrail, tickPeak,
      tickVol, tickPrice, routeHealth, pyOr, pyOrOpt, abs_ite_q, cfg0, stA, pos0]

/-- C3 (code bug).  Watch.py lines 119-124 price the trail exit at the
stop level with notional `entry_usd * (trail / entry_price)`, exactly as
claimed — but the block is unreachable: the tick raises `AttributeError`
at line 87.  At the failing input (price 0.79 against trail 0.8, no
gap/cliff) the dead code would report the trail exit at 0.8 with
notional 8 = 10 * (0.8 / 1); the program raises instead and no exit
occurs. -/
theorem trail_exit_bug :
    (tickPositionE cfg0 0 (some (79 / 100)) true pos0 stT).2 =
      Except.error AttributeErr.markMissing
    ∧ (¬ gapFiresAt cfg0 stT (tickPrice (some (79 / 100)) pos0 stT))
    ∧ (¬ rugFiresAt cfg0 stT (tickPrice (some (79 / 100)) pos0 stT))
    ∧ tickPrice (some (79 / 100)) pos0 stT ≤
        tickTrail cfg0 stT (tickPrice (some (79 / 100)) pos0 stT)
    ∧ (tickAt cfg0 0 true pos0 stT (tickPrice (some (79 / 100)) pos0 stT)).2 =
        some ⟨.trail, 4 / 5, 8⟩ := by
  refine ⟨rfl, ?_, ?_, ?_, ?_⟩
  · norm_num [abs_ite_q, gapFiresAt, tickTrail, tickPeak, tickVol, tickPrice, pyOr,
      pyOrOpt, cfg0, stT, stA, pos0]
  · norm_num [rugFiresAt, tickPrice, pyOr, pyOrOpt, cfg0, stT, stA, pos0]
  · norm_num [abs_ite_q, tickTrail, tickPeak, tickVol, tickPrice, pyOr, pyOrOpt, cfg0,
      stT, stA, pos0]
  · norm_num [tickAt, tickUpdateAt, gapFiresAt, rugFiresAt, tickTrail, tickPeak,
      tickVol, tickPrice, routeHealth, pyOr, pyOrOpt, abs_ite_q, cfg0, stT, stA, pos0]

/-- C4 (amended).  Route-health contract of `_route_health`: inside the
throttle window (`now - last_quote_ts < WATCH_QUOTE_INTERVAL_S`) nothing
is probed and the monitor reports healthy regardless of the stored
streak; otherwise a probe runs, stamps `last_quote_ts`, resets the streak
to 0 on success and increments it on failure, and reports unhealthy
exactly when the updated streak has reached `WATCH_ROUTE_FAILS_EXIT`. -/
theorem route_health_contract (cfg : Cfg) (now : ℚ) (probe_ok : Bool) (st : WatchState) :
    (now - st.last_quote_ts < cfg.WATCH_QUOTE_INTERVAL_S →
      routeHealth cfg now probe_ok st = (st, true))
    ∧ (¬ now - st.last_quote_ts < cfg.WATCH_QUOTE_INTERVAL_S →
        ((routeHealth cfg now probe_ok st).1.last_quote_ts = now
        ∧ (probe_ok = true → (routeHealth cfg now probe_ok st).1.route_fail_streak = 0)
        ∧ (probe_ok = false →
            (routeHealth cfg now probe_ok st).1.route_fail_streak =
              st.route_fail_streak + 1)
        ∧ ((routeHealth cfg now probe_ok st).2 = true ↔
            (routeHealth cfg now probe_ok st).1.route_fail_streak <
              cfg.WATCH_ROUTE_FAILS_EXIT))) := by
  constructor
  · intro h
    unfold routeHealth
    rw [if_pos h]
  · intro h
    unfold routeHealth
    rw [if_neg h]
    cases probe_ok
    · dsimp only
      refine ⟨rfl, ?_, fun _ => rfl, ?_⟩
      · intro hc; cases hc
      · simp
    · dsimp only
      refine ⟨rfl, fun _ => rfl, ?_, ?_⟩
      · intro hc; cases hc
      · simp

/-- C4 witness: with the default threshold 2 and a 20-second-old probe
stamp, a failed probe at time 20 runs (not throttled), bumps the streak
from 0 to 1, and still reports healthy because 1 < 2 — so the first
consecutive failure does not fire an exit. -/
theorem route_health_contract_witness :
    (¬ (20 : ℚ) - stD0.last_quote_ts < cfg0.WATCH_QUOTE_INTERVAL_S)
    ∧ ((routeHealth cfg0 20 false stD0).1.last_quote_ts = 20
      ∧ (false = true → (routeHealth cfg0 20 false stD0).1.route_fail_streak = 0)
      ∧ (false = false →
          (routeHealth cfg0 20 false stD0).1.route_fail_streak =
            stD0.route_fail_streak + 1)
      ∧ ((routeHealth cfg0 20 false stD0).2 = true ↔
          (routeHealth cfg0 20 false stD0).1.route_fail_streak <
            cfg0.WATCH_ROUTE_FAILS_EXIT)) :=
  ⟨by norm_num [stD0, cfg0],
    (route_health_contract cfg0 20 false stD0).2 (by norm_num [stD0, cfg0])⟩

/-- C4 counterexample to the claim as stated: `stC4` carries a
route-fail streak already at the exit threshold (2) with no successful
probe since, yet called 1 second after the last probe stamp — inside the
throttle window — `_route_health` returns healthy without probing even
though the probe would fail, so the streak is not treated as a standing
RouteFailExit condition between probes; and the position tick carrying
that state raises at watch.py line 87 anyway, so no RouteFailExit could
be fired from it. -/
theorem route_standing_cex :
    cfg0.WATCH_ROUTE_FAILS_EXIT ≤ stC4.route_fail_streak
    ∧ routeHealth cfg0 6 false stC4 = (stC4, true)
    ∧ (tickPositionE cfg0 6 (some 2) false pos0 stC4).2 =
        Except.error AttributeErr.markMissing := by
  refine ⟨by norm_num [cfg0, stC4], ?_, rfl⟩
  norm_num [routeHealth, cfg0, stC4]

/-- C5.  Chase gating: whenever the ledger reports no free capacity for
the configured per-trade notional, `_maybe_chase_entry` stops before any
external effect — no quote is requested, no position is opened, no
notification is sent — regardless of the watch state (in particular of
how far the price has moved since the entry was added) and of the quote
the router would return. -/
theorem chase_no_capacity (cfg : Cfg) (l : TradeLedger) (routerName mint : String)
    (st : WatchState) (q : QuoteResult) (mc lp : Option ℚ)
    (h : free_capacity_ok cfg l cfg.PER_TRADE_USD_TARGET = false) :
    maybeChaseEntry cfg l routerName mint st q mc lp =
      ⟨cfg.DRY_RUN && cfg.PAPER_AUTOTRADE, false, none, false⟩ := by
  cases hD : cfg.DRY_RUN <;> cases hA : cfg.PAPER_AUTOTRADE <;>
    simp [maybeChaseEntry, hD, hA, h]

/-- C5 witness: a ledger at the 3-slot cap has no free capacity, and the
chase evaluator on it produces no quote request, no open call and no
notification even for a strongly accelerating price. -/
theorem chase_no_capacity_witness :
    free_capacity_ok cfg0 ledgerFull cfg0.PER_TRADE_USD_TARGET = false
    ∧ maybeChaseEntry cfg0 ledgerFull "PHOTON" "m1" stA qOk (some 1) (some 1) =
        ⟨cfg0.DRY_RUN && cfg0.PAPER_AUTOTRADE, false, none, false⟩ :=
  ⟨by decide,
    chase_no_capacity cfg0 ledgerFull "PHOTON" "m1" stA qOk (some 1) (some 1)
      (by decide)⟩

/-- C10.  Chase entries are paper-only: when `DRY_RUN` is false or
`PAPER_AUTOTRADE` is false, `_maybe_chase_entry` returns at its first
check with no capacity check, no quote request, no position open and no
notification, so a chase entry can never place a live trade. -/
theorem chase_paper_only (cfg : Cfg) (l : TradeLedger) (routerName mint : String)
    (st : WatchState) (q : QuoteResult) (mc lp : Option ℚ)
    (h : cfg.DRY_RUN = false ∨ cfg.PAPER_AUTOTRADE = false) :
    maybeChaseEntry cfg l routerName mint st q mc lp = ⟨false, false, none, false⟩ := by
  have hn : ¬ (cfg.DRY_RUN = true ∧ cfg.PAPER_AUTOTRADE = true) := by
    rcases h with h | h <;> simp [h]
  unfold maybeChaseEntry
  rw [if_pos hn]

/-- C10 witness: with `DRY_RUN = false` the chase evaluator does nothing
at all, even with free capacity and a favourable quote. -/
theorem chase_paper_only_witness :
    (cfgLive.DRY_RUN = false ∨ cfgLive.PAPER_AUTOTRADE = false)
    ∧ maybeChaseEntry cfgLive ledger0 "PHOTON" "m1" stA qOk (some 1) (some 1) =
        ⟨false, false, none, false⟩ :=
  ⟨Or.inl rfl,
    chase_paper_only cfgLive ledger0 "PHOTON" "m1" stA qOk (some 1) (some 1)
      (Or.inl rfl)⟩

/-- A lookup that succeeds in a prefix still succeeds after appending. -/
theorem lookup_append_left (k : String) (v : WatchState)
    (l1 l2 : List (String × WatchState)) (h : List.lookup k l1 = some v) :
    List.lookup k (l1 ++ l2) = some v := by
  induction l1 with
  | nil => simp [List.lookup] at h
  | cons a t ih =>
    obtain ⟨ka, va⟩ := a
    rw [List.cons_append]
    by_cases hk : k == ka
    · simp [List.lookup, hk] at h ⊢
      exact h
    · simp only [List.lookup, Bool.not_eq_true] at hk
      simp only [List.lookup, hk] at h ⊢
      exact ih h

/-- C6 (amended).  `add_candidate` alone respects the capacity policy: a
candidate proposed against a full watch set is dropped and the set is
returned unchanged, a set within capacity stays within capacity, and no
existing entry is ever evicted; the run loop's adoption of
ledger-reported positions is what can push the set past
`WATCHLIST_MAX` (see the counterexample). -/
theorem add_candidate_capacity (cfg : Cfg) (now : ℚ)
    (watch : List (String × WatchState)) (meta : CandidateMeta) :
    (watch.length ≥ cfg.WATCHLIST_MAX → add_candidate cfg now watch meta = watch)
    ∧ (watch.length ≤ cfg.WATCHLIST_MAX →
        (add_candidate cfg now watch meta).length ≤ cfg.WATCHLIST_MAX)
    ∧ (∀ k v, List.lookup k watch = some v →
        List.lookup k (add_candidate cfg now watch meta) = some v) := by
  unfold add_candidate
  dsimp only
  split_ifs with h1 h2 h3
  · exact ⟨fun _ => rfl, fun hl => hl, fun k v hv => hv⟩
  · exact ⟨fun _ => rfl, fun hl => hl, fun k v hv => hv⟩
  · exact ⟨fun _ => rfl, fun hl => hl, fun k v hv => hv⟩
  · refine ⟨fun hfull => absurd hfull h3, fun _ => ?_, fun k v hv =>
      lookup_append_left k v watch _ hv⟩
    rw [List.length_append]
    simp only [List.length_singleton]
    omega

/-- C6 witness: a full one-slot watch set drops the new candidate and is
returned unchanged. -/
theorem add_candidate_capacity_witness :
    watch1.length ≥ cfgSmall.WATCHLIST_MAX
    ∧ add_candidate cfgSmall 0 watch1 metaM = watch1 :=
  ⟨by decide, (add_candidate_capacity cfgSmall 0 watch1 metaM).1 (by decide)⟩

/-- C6 counterexample to the claim as stated: with `WATCHLIST_MAX = 1`
and a full watch set, the run loop's `setdefault` adoption of a
ledger-reported open position on a new mint grows the watch set to 2
entries, exceeding the configured capacity. -/
theorem watch_capacity_cex :
    cfgSmall.WATCHLIST_MAX = 1
    ∧ watch1.length = 1
    ∧ (adoptPosition cfgSmall 0 watch1 "m2" pos0).length = 2 := by
  refine ⟨rfl, rfl, ?_⟩
  rfl

/-- C8 (amended).  A failed market-data fetch is not specially handled
and the token is not skipped untouched: the tick computes the stale
fallback price (`last_price or entry_price`) exactly as if that price
had been fetched, stores it in `last_price` (a state update), and then —
like every position tick — ends in the `AttributeError` from the
`ledger.mark` call, so no exit evaluation and no alert happen; the token
is seen again on the next tick. -/
theorem fetch_no_skip (cfg : Cfg) (now : ℚ) (probe_ok : Bool) (pos : Position)
    (st : WatchState) :
    tickPositionE cfg now none probe_ok pos st =
      tickPositionE cfg now (some (pyOr st.last_price pos.entry_price)) probe_ok pos st
    ∧ (tickPositionE cfg now none probe_ok pos st).1 =
        { st with last_price := pyOr st.last_price pos.entry_price }
    ∧ (tickPositionE cfg now none probe_ok pos st).2 =
        Except.error AttributeErr.markMissing := by
  refine ⟨?_, rfl, rfl⟩
  unfold tickPositionE
  have h : tickPrice (some (pyOr st.last_price pos.entry_price)) pos st =
      tickPrice none pos st := by
    unfold tickPrice pyOrOpt
    exact ite_self _
  rw [h]

/-- C8 counterexample to the claim as stated: on a tick whose fetch
fails (`none`) against a state whose stored last price is 0, the token
is not skipped with no state update — `last_price` is set to the entry
price before the tick dies in the `AttributeError` at watch.py
line 87. -/
theorem fetch_skip_cex :
    (tickPositionE cfg0 0 none true pos0 stB).1 ≠ stB
    ∧ (tickPositionE cfg0 0 none true pos0 stB).1.last_price = pos0.entry_price
    ∧ (tickPositionE cfg0 0 none true pos0 stB).2 =
        Except.error AttributeErr.markMissing := by
  refine ⟨?_, rfl, rfl⟩
  intro hEq
  have h : (tickPositionE cfg0 0 none true pos0 stB).1.last_price = 1 := rfl
  rw [hEq] at h
  norm_num [stB, stA] at h

/-- C9.  Idempotent close: `close_paper` on a mint with no open position
returns the ledger unchanged — same balance, same position map, and no
new row appended to the trade history (and `close_paper` itself never
notifies). -/
theorem close_paper_absent (l : TradeLedger) (mint : String) (exit_usd : ℚ)
    (exit_reason : String) (h : List.lookup mint l.positions = none) :
    close_paper l mint exit_usd exit_reason = l := by
  unfold close_paper
  rw [h]

/-- C9 witness: closing mint `"m1"` on an empty ledger is a no-op. -/
theorem close_paper_absent_witness :
    List.lookup "m1" ledger0.positions = none
    ∧ close_paper ledger0 "m1" 5 "trail" = ledger0 :=
  ⟨rfl, close_paper_absent ledger0 "m1" 5 "trail" rfl⟩

/-- The EMA recurrence for the accumulator-threaded tail: each output
after the first is the previous output moved toward the new input by
factor `k`. -/
theorem emaAux_getD_chain (k : ℚ) :
    ∀ (l : List ℚ) (a : ℚ) (i : ℕ), i < l.length →
      (a :: emaAux k a l).getD (i + 1) 0 =
        (a :: emaAux k a l).getD i 0 +
          k * (l.getD i 0 - (a :: emaAux k a l).getD i 0) := by
  intro l
  induction l with
  | nil =>
    intro a i h
    simp at h
  | cons v vs ih =>
    intro a i h
    cases i with
    | zero => simp [emaAux]
    | succ i =>
      have h2 : i < vs.length := by simpa using h
      have h3 := ih (a + k * (v - a)) i h2
      simpa [emaAux] using h3

/-- The EMA recurrence of `ema` with smoothing constant
`k = 2/(span+1)`. -/
theorem ema_rec (values : List ℚ) (span : ℕ) (i : ℕ) (h : i + 1 < values.length) :
    (ema values span).getD (i + 1) 0 =
      (ema values span).getD i 0 +
        2 / ((span : ℚ) + 1) * (values.getD (i + 1) 0 - (ema values span).getD i 0) := by
  cases values with
  | nil => simp at h
  | cons v vs =>
    have h2 : i < vs.length := by simpa using h
    simpa [ema] using emaAux_getD_chain (2 / ((span : ℚ) + 1)) vs v i h2

/-- The first EMA output equals the first input. -/
theorem ema_head (l : List ℚ) (span : ℕ) : (ema l span).getD 0 0 = l.getD 0 0 := by
  cases l <;> simp [ema]

/-- `zip3` over equal-length lists has the same length. -/
theorem zip3_length (hs ls cs : List ℚ) (hh : hs.length = cs.length)
    (hl : ls.length = cs.length) : (zip3 hs ls cs).length = cs.length := by
  induction cs generalizing hs ls with
  | nil =>
    cases hs with
    | nil =>
      cases ls with
      | nil => rfl
      | cons b bs => simp at hl
    | cons a as_ => simp at hh
  | cons c cs ih =>
    cases hs with
    | nil => simp at hh
    | cons a as_ =>
      cases ls with
      | nil => simp at hl
      | cons b bs =>
        simp only [zip3, List.length_cons]
        rw [ih as_ bs (by simpa using hh) (by simpa using hl)]

/-- Elementwise description of `zip3` over equal-length lists. -/
theorem zip3_getD (hs ls cs : List ℚ) (hh : hs.length = cs.length)
    (hl : ls.length = cs.length) (i : ℕ) (hi : i < cs.length) :
    (zip3 hs ls cs).getD i (0, 0, 0) = (hs.getD i 0, ls.getD i 0, cs.getD i 0) := by
  induction cs generalizing hs ls i with
  | nil => simp at hi
  | cons c cs ih =>
    cases hs with
    | nil => simp at hh
    | cons a as_ =>
      cases ls with
      | nil => simp at hl
      | cons b bs =>
        cases i with
        | zero => simp [zip3]
        | succ i =>
          simp only [zip3, List.getD_cons_succ]
          exact ih as_ bs (by simpa using hh) (by simpa using hl) i (by simpa using hi)

/-- `trList` preserves length. -/
theorem trList_length : ∀ (l : List (ℚ × ℚ × ℚ)) (p : ℚ),
    (trList p l).length = l.length := by
  intro l
  induction l with
  | nil => intro p; rfl
  | cons x rest ih =>
    intro p
    obtain ⟨xh, xl, xc⟩ := x
    simp only [trList, List.length_cons]
    rw [ih]

/-- Elementwise description of the accumulator-threaded true-range loop:
entry `i` uses the close of entry `i-1` as previous close, and the seed
`p` at entry 0. -/
theorem trList_getD : ∀ (l : List (ℚ × ℚ × ℚ)) (p : ℚ) (i : ℕ), i < l.length →
    (trList p l).getD i 0 =
      max ((l.getD i (0, 0, 0)).1 - (l.getD i (0, 0, 0)).2.1)
        (max |(l.getD i (0, 0, 0)).1 -
              (if i = 0 then p else (l.getD (i - 1) (0, 0, 0)).2.2)|
             |(l.getD i (0, 0, 0)).2.1 -
              (if i = 0 then p else (l.getD (i - 1) (0, 0, 0)).2.2)|) := by
  intro l
  induction l with
  | nil =>
    intro p i h
    simp at h
  | cons x rest ih =>
    intro p i h
    obtain ⟨xh, xl, xc⟩ := x
    cases i with
    | zero => simp [trList]
    | succ i =>
      have h2 : i < rest.length := by simpa using h
      have h3 := ih xc i h2
      simp only [trList, List.getD_cons_succ, Nat.succ_ne_zero, if_false,
        Nat.add_sub_cancel]
      rw [h3]
      cases i with
      | zero => simp
      | succ j => simp

/-- C7.  ATR definition: for equal-length, non-empty high/low/close
series, the true range computed by the source's threaded loop at each
index is `max(high-low, abs(high-prevClose), abs(low-prevClose))` with
`prevClose` the previous close, initialised to the first close; `atr` is
exactly the EMA of that true-range series with smoothing constant
`2/(window+1)`, its first output equals the first true range, and each
later output follows the EMA recurrence; on empty input `atr` returns
the empty sequence. -/
theorem atr_spec (hs ls cs : List ℚ) (window : ℕ)
    (hh : hs.length = cs.length) (hl : ls.length = cs.length) (hne : cs ≠ []) :
    ((atr hs ls cs window).getD 0 0 = trueRangeSpec hs ls cs 0)
    ∧ (∀ i, i < cs.length →
        (trList (cs.getD 0 0) (zip3 hs ls cs)).getD i 0 = trueRangeSpec hs ls cs i)
    ∧ atr hs ls cs window = ema (trList (cs.getD 0 0) (zip3 hs ls cs)) window
    ∧ (∀ i, i + 1 < cs.length →
        (atr hs ls cs window).getD (i + 1) 0 =
          (atr hs ls cs window).getD i 0 +
            2 / ((window : ℚ) + 1) *
              (trueRangeSpec hs ls cs (i + 1) - (atr hs ls cs window).getD i 0))
    ∧ atr [] [] [] window = [] := by
  have e3 : atr hs ls cs window = ema (trList (cs.getD 0 0) (zip3 hs ls cs)) window := by
    unfold atr
    cases cs with
    | nil => exact absurd rfl hne
    | cons c cst => rfl
  have hlen : (zip3 hs ls cs).length = cs.length := zip3_length hs ls cs hh hl
  have htr : ∀ i, i < cs.length →
      (trList (cs.getD 0 0) (zip3 hs ls cs)).getD i 0 = trueRangeSpec hs ls cs i := by
    intro i hi
    rw [trList_getD (zip3 hs ls cs) (cs.getD 0 0) i (by rw [hlen]; exact hi)]
    unfold trueRangeSpec
    rw [zip3_getD hs ls cs hh hl i hi]
    cases i with
    | zero => simp
    | succ j =>
      have hz := zip3_getD hs ls cs hh hl j (Nat.lt_of_succ_lt hi)
      simp only [Nat.add_sub_cancel, hz]
  refine ⟨?_, htr, e3, ?_, rfl⟩
  · rw [e3, ema_head]
    exact htr 0 (List.length_pos.mpr hne)
  · intro i hi
    rw [e3]
    have hlen2 : i + 1 < (trList (cs.getD 0 0) (zip3 hs ls cs)).length := by
      rw [trList_length, hlen]
      exact hi
    rw [ema_rec _ window i hlen2, htr (i + 1) hi]

/-- C7 witness: on the sample two-bar series the first ATR output equals
the first true range, which evaluates to
`max(2-1, abs(2-1.5), abs(1-1.5)) = 1`. -/
theorem atr_spec_witness :
    highs0.length = closes0.length
    ∧ lows0.length = closes0.length
    ∧ closes0 ≠ []
    ∧ (atr highs0 lows0 closes0 12).getD 0 0 = trueRangeSpec highs0 lows0 closes0 0
    ∧ trueRangeSpec highs0 lows0 closes0 0 = 1 :=
  ⟨rfl, rfl, by simp [closes0],
    (atr_spec highs0 lows0 closes0 12 rfl rfl (by simp [closes0])).1,
    by norm_num [trueRangeSpec, highs0, lows0, closes0, abs_ite_q]⟩

end NSN
